import Mathlib

/-!
Shallow embedding of `src/js/MaskedView.js` (felinellc/masked-view).

The component `MaskedView` is a React class component whose `render` method
dispatches on `React.isValidElement(maskElement)` and on the module-load-time
constant `RNCMaskedView` (the native masking primitive, or `null` when
`requireNativeComponent` is unavailable).  The only instance state is the
boolean field `_hasWarnedInvalidRenderMask`, initialised to `false`.

React element values, child subtrees and caller-supplied styles are opaque to
the component, so they are embedded as opaque tags (`Nat` identifiers).  The
output JSX tree is embedded as an inductive `Node` whose attributes record
exactly what the source sets on each element.  `render` is a total function
from the availability flag, the warning flag and the props to an output tree,
a list of emitted diagnostics and the new warning flag; the source contains
no `throw`, and every branch returns a tree, which the totality of the Lean
function mirrors.
-/

namespace MaskedView

/-- A JavaScript value that may be passed as the `maskElement` prop: a genuine
React element (tagged by an opaque identifier), `null`, `undefined`, a
primitive, or a plain (non-element) object. -/
inductive RValue where
  | elem (id : Nat)
  | null
  | undefined
  | prim (id : Nat)
  | obj (id : Nat)
deriving DecidableEq

/-- Embedding of `React.isValidElement`: true exactly on React elements. -/
def isValidElement : RValue → Bool
  | .elem _ => true
  | _ => false

/-- A single style value: an opaque caller-supplied style, an inline style
object literal (list of key/value fields), or `StyleSheet.absoluteFill`. -/
inductive StyleAtom where
  | user (id : Nat)
  | objStyle (fields : List (String × String))
  | absoluteFill
deriving DecidableEq

/-- A style attribute as the source writes it: either a single style value or
the two-element style array `[otherViewProps.style, override]` from line 89,
whose first entry may be `undefined`. -/
inductive Style where
  | single (a : StyleAtom)
  | pairArr (fst : Option StyleAtom) (snd : StyleAtom)
deriving DecidableEq

/-- The passthrough props (`...otherViewProps`): the caller's `style`, the
caller's `testID`, and all remaining passthrough attributes as opaque
key/value pairs. -/
structure ViewProps where
  style : Option StyleAtom
  testID : Option String
  other : List (String × String)
deriving DecidableEq

/-- The props of a `render` call after destructuring on line 60:
`maskElement`, the opaque `children` subtree (absent or present), and the
rest (`otherViewProps`). -/
structure Props where
  maskElement : RValue
  children : Option Nat
  otherViewProps : ViewProps
deriving DecidableEq

/-- Kinds of elements the render method emits: `View`, the native
`RNCMaskedView`, and the vector-graphics `Svg`, `Mask`, `ForeignObject`. -/
inductive NodeKind where
  | view
  | rncMaskedView
  | svg
  | mask
  | foreignObject
deriving DecidableEq

/-- The attributes placed on an emitted element: an optional props spread
(`...otherViewProps`), an explicit `style` attribute (which, written after a
spread, overrides the spread's style), `pointerEvents`, `id`, `mask`. -/
structure Attrs where
  spread : Option ViewProps
  styleAttr : Option Style
  pointerEvents : Option String
  idAttr : Option String
  maskRef : Option String
deriving DecidableEq

/-- An output tree node: an emitted element with attributes and children, the
embedded `{maskElement}` content, or the embedded opaque `{children}`
subtree. -/
inductive Node where
  | el (kind : NodeKind) (attrs : Attrs) (kids : List Node)
  | maskContent (v : RValue)
  | childContent (c : Nat)

/-- Attributes with nothing set; individual attributes are added per element
with structure-update syntax. -/
def noAttrs : Attrs :=
  { spread := none, styleAttr := none, pointerEvents := none, idAttr := none,
    maskRef := none }

/-- JSX `{children}`: renders nothing when `children` is absent, and the
opaque subtree when present. -/
def renderChildrenSlot : Option Nat → List Node
  | none => []
  | some c => [.childContent c]

/-- The diagnostic message emitted on lines 64-67 of the source. -/
def invalidMaskMessage : String :=
  "MaskedView: Invalid `maskElement` prop was passed to MaskedView. " ++
    "Expected a React Element. No mask will render."

/-- Initial value of the instance field `_hasWarnedInvalidRenderMask`
(line 57 of the source). -/
def initialHasWarnedInvalidRenderMask : Bool := false

/-- Result of one `render` call: the returned output tree, the diagnostics
emitted by `console.error` during the call, and the value of
`_hasWarnedInvalidRenderMask` after the call.  The flag is the only instance
state the method reads or writes. -/
structure RenderResult where
  output : Node
  diagnostics : List String
  warned : Bool

/-- Embedding of `MaskedView.render` (lines 59-115).  `rncMaskedViewAvailable`
models the module-load-time constant `RNCMaskedView` being non-null;
`hasWarnedInvalidRenderMask` is the instance flag before the call. -/
def render (rncMaskedViewAvailable : Bool) (hasWarnedInvalidRenderMask : Bool)
    (p : Props) : RenderResult :=
  if !(isValidElement p.maskElement) then
    { output := .el .view { noAttrs with spread := some p.otherViewProps }
        (renderChildrenSlot p.children),
      diagnostics :=
        if !hasWarnedInvalidRenderMask then [invalidMaskMessage] else [],
      warned := true }
  else if rncMaskedViewAvailable then
    { output := .el .rncMaskedView { noAttrs with spread := some p.otherViewProps }
        (.el .view
            { noAttrs with
                pointerEvents := some "none",
                styleAttr := some (.single .absoluteFill) }
            [.maskContent p.maskElement] :: renderChildrenSlot p.children),
      diagnostics := [],
      warned := hasWarnedInvalidRenderMask }
  else
    { output := .el .view
        { noAttrs with
            spread := some p.otherViewProps,
            styleAttr := some (.pairArr p.otherViewProps.style
              (.objStyle [("flex", "1"), ("width", "100%"),
                ("backgroundColor", "red")])) }
        [.el .svg
          { noAttrs with
              styleAttr := some (.single (.objStyle
                [("flex", "1"), ("width", "100%"), ("backgroundColor", "blue")])) }
          [.el .mask
            { noAttrs with
                idAttr := some "mask",
                styleAttr := some (.single (.objStyle
                  [("flex", "1"), ("width", "100%"), ("height", "100%")])) }
            [.el .foreignObject
              { noAttrs with
                  styleAttr := some (.single (.objStyle
                    [("flex", "1"), ("width", "100%"), ("height", "100%")])) }
              [.maskContent p.maskElement]],
           .el .foreignObject
            { noAttrs with
                maskRef := some "url(#mask)",
                styleAttr := some (.single (.objStyle
                  [("flex", "1"), ("width", "100%"), ("height", "100%"),
                    ("backgroundColor", "red"), ("overflowY", "auto")])) }
            (renderChildrenSlot p.children)]],
      diagnostics := [],
      warned := hasWarnedInvalidRenderMask }

/-- The three output shapes of the spec's tagged choice. -/
inductive RenderShape where
  | unmasked
  | nativeMasked
  | vectorMasked
deriving DecidableEq

/-- The spec's pure decision function of
`(maskElementValidity, nativePrimitiveAvailable)`, checked in strict order
with first match winning. -/
def decideShape (maskElementValid rncMaskedViewAvailable : Bool) : RenderShape :=
  if !maskElementValid then .unmasked
  else if rncMaskedViewAvailable then .nativeMasked
  else .vectorMasked

/-- Classify an output tree by shape, from its structure alone: a native-mask
container is the NativeMasked shape, a `View` whose first child is an `Svg`
canvas is the VectorMasked shape, anything else is the Unmasked shape. -/
def shapeOf : Node → RenderShape
  | .el .rncMaskedView _ _ => .nativeMasked
  | .el .view _ (.el .svg _ _ :: _) => .vectorMasked
  | _ => .unmasked

/-- The props spread onto the root element of an output tree, if any. -/
def rootSpread : Node → Option ViewProps
  | .el _ a _ => a.spread
  | _ => none

/-- The explicit `style` attribute of the root element of an output tree. -/
def rootStyleAttr : Node → Option Style
  | .el _ a _ => a.styleAttr
  | _ => none

/-- The effective style of the root element: the explicit `style` attribute
when present (written after the spread, it overrides the spread), otherwise
the style carried by the spread props. -/
def rootEffectiveStyle (n : Node) : Option Style :=
  match rootStyleAttr n with
  | some s => some s
  | none => ((rootSpread n).bind ViewProps.style).map .single

/-- The passthrough props appear unmodified on the root: the root carries the
caller's props as its spread, and its effective style is exactly the caller's
style. -/
def passthroughUnmodifiedAtRoot (n : Node) (vp : ViewProps) : Prop :=
  rootSpread n = some vp ∧ rootEffectiveStyle n = vp.style.map .single

/-- The attributes of a node, when it is an emitted element. -/
def elAttrs : Node → Option Attrs
  | .el _ a _ => some a
  | _ => none

/-- The children of a node, when it is an emitted element. -/
def elKids : Node → List Node
  | .el _ _ kids => kids
  | _ => []

mutual

/-- All mask-definition (`Mask`) nodes of an output tree. -/
def maskDefs : Node → List Node
  | .el .mask a kids => .el .mask a kids :: maskDefsList kids
  | .el _ _ kids => maskDefsList kids
  | .maskContent _ => []
  | .childContent _ => []

/-- All mask-definition nodes of a list of trees. -/
def maskDefsList : List Node → List Node
  | [] => []
  | n :: ns => maskDefs n ++ maskDefsList ns

end

mutual

/-- All mask-consumer nodes of an output tree: emitted elements carrying a
`mask` reference attribute. -/
def maskConsumers : Node → List Node
  | .el k a kids =>
      (if a.maskRef.isSome then [Node.el k a kids] else []) ++
        maskConsumersList kids
  | .maskContent _ => []
  | .childContent _ => []

/-- All mask-consumer nodes of a list of trees. -/
def maskConsumersList : List Node → List Node
  | [] => []
  | n :: ns => maskConsumers n ++ maskConsumersList ns

end

mutual

/-- The number of opaque `children` subtrees embedded in an output tree. -/
def countChildContent : Node → Nat
  | .el _ _ kids => countChildContentList kids
  | .maskContent _ => 0
  | .childContent _ => 1

/-- The number of opaque `children` subtrees embedded in a list of trees. -/
def countChildContentList : List Node → Nat
  | [] => 0
  | n :: ns => countChildContent n + countChildContentList ns

end

/-- The ids of the mask definitions of an output tree. -/
def maskIdsOf (n : Node) : List String :=
  (maskDefs n).filterMap (fun d => (elAttrs d).bind Attrs.idAttr)

/-- The vector-graphics reference to a mask definition with the given id. -/
def maskUrlRef (i : String) : String :=
  "url(#" ++ i ++ ")"

/-- Whether a style atom carries the given field with the given value. -/
def atomHasField (f v : String) : StyleAtom → Bool
  | .objStyle fields => fields.contains (f, v)
  | _ => false

/-- Whether a style attribute carries the given field with the given value. -/
def styleHasField (f v : String) : Style → Bool
  | .single a => atomHasField f v a
  | .pairArr fst snd =>
      (match fst with
       | some a => atomHasField f v a
       | none => false) || atomHasField f v snd

/-- A trace of successive `render` calls on one instance: threads the
`_hasWarnedInvalidRenderMask` flag through the calls and collects every
diagnostic emitted, returning the final flag and the diagnostics in order. -/
def renderTrace (rncMaskedViewAvailable : Bool) :
    List Props → Bool → Bool × List String
  | [], warned => (warned, [])
  | p :: ps, warned =>
      let r := render rncMaskedViewAvailable warned p
      let rest := renderTrace rncMaskedViewAvailable ps r.warned
      (rest.1, r.diagnostics ++ rest.2)

/-- The kind of a node, when it is an emitted element. -/
def elKind : Node → Option NodeKind
  | .el k _ _ => some k
  | _ => none

/-- Once the warning flag is set, any further sequence of renders emits no
diagnostic at all and leaves the flag set, whatever the props of each call. -/
theorem renderTrace_after_warned (rncMaskedViewAvailable : Bool)
    (ps : List Props) :
    renderTrace rncMaskedViewAvailable ps true = (true, []) := by
  induction ps with
  | nil => rfl
  | cons p ps ih =>
      cases hv : isValidElement p.maskElement <;>
        cases rncMaskedViewAvailable <;>
        simp_all [renderTrace, render, hv]

/-- C1: for every props input, `render` selects exactly one of the three
output shapes (Unmasked, NativeMasked, VectorMasked) by the pure decision
function `decideShape` of (maskElement validity, native primitive
availability), checked in strict order with first match winning. -/
theorem render_selects_shape_by_pure_decision
    (rncMaskedViewAvailable warned : Bool) (p : Props) :
    shapeOf (render rncMaskedViewAvailable warned p).output =
      decideShape (isValidElement p.maskElement) rncMaskedViewAvailable := by
  cases hv : isValidElement p.maskElement <;>
    cases rncMaskedViewAvailable <;>
    cases hc : p.children <;>
    simp [render, decideShape, shapeOf, hv, hc, renderChildrenSlot]

/-- C2: for every invalid `maskElement` (null, undefined, a primitive, or a
plain non-element object), `render` returns a plain `View` container with the
passthrough props spread onto it, wrapping `children` directly, and no mask
node anywhere; `render` is total, so the condition never raises. -/
theorem invalid_mask_renders_plain_container
    (rncMaskedViewAvailable warned : Bool) (p : Props)
    (hv : isValidElement p.maskElement = false) :
    (render rncMaskedViewAvailable warned p).output =
        Node.el .view { noAttrs with spread := some p.otherViewProps }
          (renderChildrenSlot p.children) ∧
      maskDefs (render rncMaskedViewAvailable warned p).output = [] := by
  cases hc : p.children <;>
    simp [render, hv, hc, renderChildrenSlot,
      maskDefs, maskDefsList]

/-- A concrete props value whose `maskElement` is `null`, hence invalid. -/
def probeInvalidProps : Props :=
  { maskElement := .null, children := some 0,
    otherViewProps := { style := some (.user 5), testID := some "t", other := [] } }

/-- Witness for C2 at a concrete invalid input. -/
theorem invalid_mask_renders_plain_container_witness :
    isValidElement probeInvalidProps.maskElement = false ∧
      ((render true false probeInvalidProps).output =
          Node.el .view
            { noAttrs with spread := some probeInvalidProps.otherViewProps }
            (renderChildrenSlot probeInvalidProps.children) ∧
        maskDefs (render true false probeInvalidProps).output = []) :=
  ⟨rfl, invalid_mask_renders_plain_container true false probeInvalidProps rfl⟩

/-- C10: `_hasWarnedInvalidRenderMask` starts false and each render call
updates it to `warned || not valid`: a render with a valid maskElement leaves
it unchanged, an invalid render sets it, and once true it can never return to
false.  In the embedding the flag is the only instance state `render` reads
or writes. -/
theorem warned_flag_monotone_update
    (rncMaskedViewAvailable warned : Bool) (p : Props) :
    (render rncMaskedViewAvailable warned p).warned =
        (warned || !(isValidElement p.maskElement)) ∧
      initialHasWarnedInvalidRenderMask = false := by
  cases hv : isValidElement p.maskElement <;>
    cases rncMaskedViewAvailable <;> cases warned <;>
    simp [render, hv, initialHasWarnedInvalidRenderMask]

/-- A concrete props value whose `maskElement` is a genuine React element. -/
def probeValidProps : Props :=
  { maskElement := .elem 0, children := some 1,
    otherViewProps := { style := some (.user 7), testID := some "v", other := [] } }

/-- A concrete props value with a valid `maskElement` and absent children. -/
def probeValidNoChildrenProps : Props :=
  { maskElement := .elem 4, children := none,
    otherViewProps := { style := none, testID := none, other := [] } }

/-- C3: starting from the initial (false) flag, a nonempty sequence of render
calls that all receive an invalid `maskElement` emits exactly one diagnostic
in total — the first call emits it — and leaves the flag true; by
`renderTrace_after_warned`, once the flag is true no later call emits. -/
theorem invalid_mask_warns_exactly_once
    (rncMaskedViewAvailable : Bool) (ps : List Props) (hne : ps ≠ [])
    (h : ∀ p ∈ ps, isValidElement p.maskElement = false) :
    (renderTrace rncMaskedViewAvailable ps initialHasWarnedInvalidRenderMask).2 =
        [invalidMaskMessage] ∧
      (renderTrace rncMaskedViewAvailable ps
        initialHasWarnedInvalidRenderMask).1 = true := by
  cases ps with
  | nil => exact absurd rfl hne
  | cons p ps =>
      have hp : isValidElement p.maskElement = false :=
        h p (List.mem_cons_self p ps)
      have hrest := renderTrace_after_warned rncMaskedViewAvailable ps
      simp [renderTrace, render, hp, initialHasWarnedInvalidRenderMask, hrest]

/-- Witness for C3: two successive invalid renders emit one diagnostic. -/
theorem invalid_mask_warns_exactly_once_witness :
    ([probeInvalidProps, probeInvalidProps] ≠ ([] : List Props)) ∧
      (∀ p ∈ [probeInvalidProps, probeInvalidProps],
        isValidElement p.maskElement = false) ∧
      ((renderTrace true [probeInvalidProps, probeInvalidProps]
          initialHasWarnedInvalidRenderMask).2 = [invalidMaskMessage] ∧
        (renderTrace true [probeInvalidProps, probeInvalidProps]
          initialHasWarnedInvalidRenderMask).1 = true) :=
  ⟨by decide, by decide,
    invalid_mask_warns_exactly_once true [probeInvalidProps, probeInvalidProps]
      (by decide) (by decide)⟩

/-- C7: an invalid render followed by a valid render on the same instance
produces a masked (non-Unmasked) output shape and emits no diagnostic on the
second call. -/
theorem invalid_then_valid_renders_masked_no_diagnostic
    (rncMaskedViewAvailable : Bool) (p1 p2 : Props)
    (h1 : isValidElement p1.maskElement = false)
    (h2 : isValidElement p2.maskElement = true) :
    shapeOf (render rncMaskedViewAvailable
        (render rncMaskedViewAvailable initialHasWarnedInvalidRenderMask p1).warned
        p2).output ≠ RenderShape.unmasked ∧
      (render rncMaskedViewAvailable
        (render rncMaskedViewAvailable initialHasWarnedInvalidRenderMask p1).warned
        p2).diagnostics = [] := by
  cases rncMaskedViewAvailable <;>
    simp [render, h1, h2, shapeOf, initialHasWarnedInvalidRenderMask]

/-- Witness for C7: invalid render then valid render at concrete props. -/
theorem invalid_then_valid_renders_masked_no_diagnostic_witness :
    isValidElement probeInvalidProps.maskElement = false ∧
      isValidElement probeValidProps.maskElement = true ∧
      (shapeOf (render false
          (render false initialHasWarnedInvalidRenderMask probeInvalidProps).warned
          probeValidProps).output ≠ RenderShape.unmasked ∧
        (render false
          (render false initialHasWarnedInvalidRenderMask probeInvalidProps).warned
          probeValidProps).diagnostics = []) :=
  ⟨rfl, rfl,
    invalid_then_valid_renders_masked_no_diagnostic false
      probeInvalidProps probeValidProps rfl rfl⟩

/-- C4: with a valid `maskElement` and the native primitive available, the
output is the native-mask container carrying the passthrough props, with
exactly two ordered children: first the `View` overlay with
`pointerEvents="none"` (non-interactive) and `StyleSheet.absoluteFill`
(covering its container) holding `maskElement`, then `children`. -/
theorem native_path_two_ordered_children
    (warned : Bool) (p : Props) (c : Nat)
    (hv : isValidElement p.maskElement = true) (hc : p.children = some c) :
    (render true warned p).output =
        Node.el .rncMaskedView { noAttrs with spread := some p.otherViewProps }
          [Node.el .view
              { noAttrs with
                  pointerEvents := some "none",
                  styleAttr := some (.single .absoluteFill) }
              [.maskContent p.maskElement],
            .childContent c] ∧
      (elKids (render true warned p).output).length = 2 := by
  simp [render, hv, hc, renderChildrenSlot, elKids]

/-- Witness for C4 at concrete valid props with children present. -/
theorem native_path_two_ordered_children_witness :
    isValidElement probeValidProps.maskElement = true ∧
      probeValidProps.children = some 1 ∧
      ((render true false probeValidProps).output =
          Node.el .rncMaskedView
            { noAttrs with spread := some probeValidProps.otherViewProps }
            [Node.el .view
                { noAttrs with
                    pointerEvents := some "none",
                    styleAttr := some (.single .absoluteFill) }
                [.maskContent probeValidProps.maskElement],
              .childContent 1] ∧
        (elKids (render true false probeValidProps).output).length = 2) :=
  ⟨rfl, rfl, native_path_two_ordered_children false probeValidProps 1 rfl rfl⟩

/-- C9: with a valid `maskElement` and absent `children`, render emits no
diagnostic, produces the masked shape selected by the native availability,
and embeds no `children` content at all — an empty masked container, not an
error (render is total). -/
theorem absent_children_renders_empty_masked_container
    (rncMaskedViewAvailable warned : Bool) (p : Props)
    (hv : isValidElement p.maskElement = true) (hc : p.children = none) :
    (render rncMaskedViewAvailable warned p).diagnostics = [] ∧
      shapeOf (render rncMaskedViewAvailable warned p).output =
        (if rncMaskedViewAvailable then RenderShape.nativeMasked
         else RenderShape.vectorMasked) ∧
      countChildContent (render rncMaskedViewAvailable warned p).output = 0 := by
  cases rncMaskedViewAvailable <;>
    simp [render, hv, hc, renderChildrenSlot, shapeOf,
      countChildContent, countChildContentList]

/-- Witness for C9 at concrete valid props with absent children. -/
theorem absent_children_renders_empty_masked_container_witness :
    isValidElement probeValidNoChildrenProps.maskElement = true ∧
      probeValidNoChildrenProps.children = none ∧
      ((render false false probeValidNoChildrenProps).diagnostics = [] ∧
        shapeOf (render false false probeValidNoChildrenProps).output =
          RenderShape.vectorMasked ∧
        countChildContent (render false false probeValidNoChildrenProps).output = 0) :=
  ⟨rfl, rfl,
    absent_children_renders_empty_masked_container false false
      probeValidNoChildrenProps rfl rfl⟩

/-- A concrete props value with a caller style that sets
`backgroundColor: green`, a testID, and another passthrough attribute. -/
def probeStyledProps : Props :=
  { maskElement := .elem 3, children := some 2,
    otherViewProps :=
      { style := some (.objStyle [("backgroundColor", "green")]),
        testID := some "probe", other := [("accessible", "true")] } }

/-- C6 counterexample: on the VectorMasked shape the passthrough props do not
appear unmodified on the root — line 89 of the source overrides the spread's
`style` with the array `[otherViewProps.style, \x7bflex: 1, width: '100%',
backgroundColor: 'red'\x7d]`, so the root's effective style is not the
caller's style (its `backgroundColor: green` is overridden by `red`). -/
theorem passthrough_modified_on_vector_root :
    ¬ passthroughUnmodifiedAtRoot (render false false probeStyledProps).output
        probeStyledProps.otherViewProps := by
  unfold passthroughUnmodifiedAtRoot
  decide

/-- C6 amended: on every output shape the root carries the caller's
passthrough props as its spread, so every passthrough prop except `style`
appears unmodified; the root has no overriding `style` attribute on the
Unmasked and NativeMasked shapes (so there the caller's `style` also appears
unmodified), while on the VectorMasked shape the root's `style` attribute is
the two-element array of the caller's style and the
`flex/width/backgroundColor: red` override. -/
theorem passthrough_props_on_root
    (rncMaskedViewAvailable warned : Bool) (p : Props) :
    rootSpread (render rncMaskedViewAvailable warned p).output =
        some p.otherViewProps ∧
      rootStyleAttr (render rncMaskedViewAvailable warned p).output =
        (if isValidElement p.maskElement && !rncMaskedViewAvailable then
          some (.pairArr p.otherViewProps.style
            (.objStyle [("flex", "1"), ("width", "100%"),
              ("backgroundColor", "red")]))
        else none) := by
  cases hv : isValidElement p.maskElement <;>
    cases rncMaskedViewAvailable <;>
    simp [render, hv, rootSpread, rootStyleAttr, noAttrs]

/-- A concrete sibling instance for the vector fallback path. -/
def siblingPropsA : Props :=
  { maskElement := .elem 1, children := some 1,
    otherViewProps := { style := some (.user 1), testID := some "a", other := [] } }

/-- A second concrete sibling instance for the vector fallback path. -/
def siblingPropsB : Props :=
  { maskElement := .elem 2, children := some 2,
    otherViewProps := { style := some (.user 2), testID := some "b", other := [] } }

/-- C8: the vector fallback path gives every instance the same fixed mask
definition id `"mask"` (line 95 of the source), so two sibling instances do
not get distinct ids — each consumer's `url(#mask)` reference resolves
ambiguously against both definitions in one document. -/
theorem sibling_vector_mask_ids_collide :
    maskIdsOf (render false false siblingPropsA).output = ["mask"] ∧
      maskIdsOf (render false false siblingPropsB).output = ["mask"] := by
  constructor <;>
    simp [maskIdsOf, render, siblingPropsA, siblingPropsB, isValidElement,
      maskDefs, maskDefsList, elAttrs, noAttrs]

/-- C5: with a valid `maskElement` and the native primitive unavailable, the
output contains exactly one mask-definition (`Mask`) node and exactly one
mask-consumer node; the definition has id `"mask"` and wraps a single
`ForeignObject` holding `maskElement`, and the consumer references that id
via `url(#mask)`, contains `children`, and carries `overflowY: auto`
(vertical overflow scrolling) in its style. -/
theorem vector_path_unique_mask_def_and_consumer
    (warned : Bool) (p : Props)
    (hv : isValidElement p.maskElement = true) :
    (maskDefs (render false warned p).output).length = 1 ∧
      (maskConsumers (render false warned p).output).length = 1 ∧
      (∃ d c, maskDefs (render false warned p).output = [d] ∧
        maskConsumers (render false warned p).output = [c] ∧
        (elAttrs d).bind Attrs.idAttr = some "mask" ∧
        (elAttrs c).bind Attrs.maskRef = some (maskUrlRef "mask") ∧
        elKind c = some NodeKind.foreignObject ∧
        elKids c = renderChildrenSlot p.children ∧
        (∃ fo, elKids d = [fo] ∧ elKind fo = some NodeKind.foreignObject ∧
          elKids fo = [Node.maskContent p.maskElement]) ∧
        (∃ s, (elAttrs c).bind Attrs.styleAttr = some s ∧
          styleHasField "overflowY" "auto" s = true)) := by
  cases hc : p.children <;>
    refine ⟨?_, ?_, ?_⟩ <;>
    simp [render, hv, hc, maskDefs, maskDefsList, maskConsumers,
      maskConsumersList, elAttrs, elKids, elKind, noAttrs, maskUrlRef,
      renderChildrenSlot, styleHasField, atomHasField]

/-- Witness for C5 at concrete valid props. -/
theorem vector_path_unique_mask_def_and_consumer_witness :
    isValidElement probeValidProps.maskElement = true ∧
      ((maskDefs (render false false probeValidProps).output).length = 1 ∧
        (maskConsumers (render false false probeValidProps).output).length = 1 ∧
        (∃ d c, maskDefs (render false false probeValidProps).output = [d] ∧
          maskConsumers (render false false probeValidProps).output = [c] ∧
          (elAttrs d).bind Attrs.idAttr = some "mask" ∧
          (elAttrs c).bind Attrs.maskRef = some (maskUrlRef "mask") ∧
          elKind c = some NodeKind.foreignObject ∧
          elKids c = renderChildrenSlot probeValidProps.children ∧
          (∃ fo, elKids d = [fo] ∧ elKind fo = some NodeKind.foreignObject ∧
            elKids fo = [Node.maskContent probeValidProps.maskElement]) ∧
          (∃ s, (elAttrs c).bind Attrs.styleAttr = some s ∧
            styleHasField "overflowY" "auto" s = true))) :=
  ⟨rfl, vector_path_unique_mask_def_and_consumer false probeValidProps rfl⟩

end MaskedView
